import Mathlib

/-!
Verification of the GA4 category report tool (src/app.py) against its
natural-language specification.  The Python source is shallowly embedded:
pure request construction and response flattening become Lean functions,
the Streamlit main block becomes a function from the collected inputs and
an abstract backend to an `Outcome`, and Python exceptions become
`Except` errors.
-/

namespace GA4

/-! ## Python string primitives used by the source -/

/-- Characters treated as whitespace by Python str.strip (ASCII subset). -/
def pyIsSpace (c : Char) : Bool :=
  c = ' ' || c = '\t' || c = '\n' || c = '\r' || c = '\x0b' || c = '\x0c'

/-- Python str.strip(): remove leading and trailing whitespace. -/
def pyStrip (s : String) : String :=
  ⟨((s.data.dropWhile pyIsSpace).reverse.dropWhile pyIsSpace).reverse⟩

/-- Line-break characters recognised by Python str.splitlines. -/
def pyLineBreaks : List Char :=
  ['\n', '\r', '\x0b', '\x0c', '\x1c', '\x1d', '\x1e', '\x85', '\u2028', '\u2029']

/-- Worker for splitlines: acc holds the current line, reversed. -/
def pySplitlinesAux : List Char → List Char → List String
  | [], acc => if acc.isEmpty then [] else [⟨acc.reverse⟩]
  | '\r' :: '\n' :: rest, acc => (⟨acc.reverse⟩ : String) :: pySplitlinesAux rest []
  | c :: rest, acc =>
      if c ∈ pyLineBreaks then (⟨acc.reverse⟩ : String) :: pySplitlinesAux rest []
      else pySplitlinesAux rest (c :: acc)

/-- Python str.splitlines(): split at line boundaries, no trailing empty line. -/
def pySplitlines (s : String) : List String :=
  pySplitlinesAux s.data []

/-- Python str.zfill(width): left-pad with the zero digit to the given
width, inserting the padding after a leading sign character. -/
def zfill (width : Nat) (s : String) : String :=
  if width ≤ s.length then s
  else
    let pad : List Char := List.replicate (width - s.length) '0'
    match s.data with
    | c :: rest => if c = '+' || c = '-' then ⟨c :: (pad ++ rest)⟩ else ⟨pad ++ (c :: rest)⟩
    | [] => ⟨pad⟩

/-- Validity of the digit part accepted by the Python int built-in:
nonempty, starts and ends with a digit, underscores only between digits. -/
def pyIntDigitsOk : List Char → Bool
  | [] => false
  | [c] => c.isDigit
  | c :: d :: rest =>
      if c.isDigit then pyIntDigitsOk (d :: rest)
      else c = '_' && d.isDigit && pyIntDigitsOk (d :: rest)

/-- The digit part must in addition start with a digit, so a leading
underscore is rejected. -/
def pyIntBodyOk (l : List Char) : Bool :=
  match l with
  | [] => false
  | c :: _ => c.isDigit && pyIntDigitsOk l

/-- Numeric value of a digit list, ignoring underscores. -/
def digitsVal (l : List Char) : Nat :=
  (l.filter (fun c => c ≠ '_')).foldl (fun n c => 10 * n + (c.toNat - 48)) 0

/-- Python int(str): strip whitespace, optional sign, digits with optional
single underscores between digits; none when the text is not an integer. -/
def pyInt (s : String) : Option Int :=
  match (pyStrip s).data with
  | '+' :: rest => if pyIntBodyOk rest then some (digitsVal rest) else none
  | '-' :: rest => if pyIntBodyOk rest then some (-(digitsVal rest : Int)) else none
  | l => if pyIntBodyOk l then some (digitsVal l) else none

/-- Decimal digits of a natural number, most significant first. -/
def decChars (n : Nat) : List Char :=
  if h : n < 10 then [Char.ofNat (48 + n)]
  else decChars (n / 10) ++ [Char.ofNat (48 + n % 10)]
  decreasing_by exact Nat.div_lt_self (by omega) (by omega)

/-- Decimal rendering of a natural number, as Python str(int) yields for
nonnegative values. -/
def decRepr (n : Nat) : String := ⟨decChars n⟩

/-- Left-pad a string with the zero digit to the given width (the plain
padding notion the spec describes; no sign handling). -/
def leftPadZero (width : Nat) (s : String) : String :=
  ⟨List.replicate (width - s.length) '0' ++ s.data⟩

/-! ## Dates and strftime -/

/-- A calendar date as the date widgets produce it. -/
structure PyDate where
  year : Nat
  month : Nat
  day : Nat
deriving Repr, DecidableEq

/-- Python date.strftime with format string Y-m-d: the year unpadded, the
month and day zero-padded to two digits. -/
def strftimeYMD (d : PyDate) : String :=
  decRepr d.year ++ "-" ++ zfill 2 (decRepr d.month) ++ "-" ++ zfill 2 (decRepr d.day)

/-- Modelled from the spec: the ISO-8601 date rendering the spec calls
toISOString8601Date, four-digit year, two-digit month and day. -/
def toISOString8601Date (d : PyDate) : String :=
  leftPadZero 4 (decRepr d.year) ++ "-" ++ leftPadZero 2 (decRepr d.month) ++ "-" ++
    leftPadZero 2 (decRepr d.day)

/-! ## The vendor request and response types (google.analytics.data_v1beta) -/

/-- DateRange message: start and end date strings. -/
structure DateRange where
  start_date : String
  end_date : String
deriving Repr, DecidableEq

/-- StringFilter match types. -/
inductive MatchType where
  | exact
  | beginsWith
  | endsWith
  | containsSub
  | fullRegexp
  | partialRegexp
deriving Repr, DecidableEq

/-- Filter.StringFilter message. -/
structure StringFilter where
  match_type : MatchType
  value : String
deriving Repr, DecidableEq

/-- Filter message restricted to the fields the source populates. -/
structure ReportFilter where
  field_name : String
  string_filter : StringFilter
deriving Repr, DecidableEq

/-- FilterExpression message restricted to the fields the source populates. -/
structure FilterExpression where
  filter : ReportFilter
deriving Repr, DecidableEq

/-- RunReportRequest with dimensions and metrics kept as their name lists. -/
structure RunReportRequest where
  property : String
  date_ranges : List DateRange
  dimensions : List String
  metrics : List String
  dimension_filter : FilterExpression
deriving Repr, DecidableEq

/-- One dimension value of a response row. -/
structure DimensionValue where
  value : String
deriving Repr, DecidableEq

/-- One metric value of a response row; the service delivers it as text. -/
structure MetricValue where
  value : String
deriving Repr, DecidableEq

/-- One row of a RunReportResponse. -/
structure ResponseRow where
  dimension_values : List DimensionValue
  metric_values : List MetricValue
deriving Repr, DecidableEq

/-- A RunReportResponse. -/
structure RunReportResponse where
  rows : List ResponseRow
deriving Repr, DecidableEq

/-! ## Report rows and errors -/

/-- The flat record fetch_ga4_data builds per response row; field names are
the dict keys of the source. -/
structure ReportRow where
  Site : String
  Year_Month : String
  Total_Users : Int
  Pageviews : Int
  Regex : String
deriving Repr, DecidableEq

/-- The ways a run can raise once fetching is under way: a service-call
failure from client.run_report, a list index out of range, a ValueError
from int() on a metric value, or a KeyError on the property directory. -/
inductive Err where
  | serviceCall (msg : String)
  | indexError
  | malformedMetric (text : String)
  | keyError (key : String)
deriving Repr, DecidableEq

/-- The abstract backend: what client.run_report does for a request. -/
def Backend : Type := RunReportRequest → Except String RunReportResponse

/-! ## fetch_ga4_data (src/app.py lines 87-121) -/

/-- The RunReportRequest built at the top of fetch_ga4_data. -/
def mkRequest (property_id regex : String) (start_date end_date : PyDate) :
    RunReportRequest where
  property := "properties/" ++ property_id
  date_ranges := [{ start_date := strftimeYMD start_date, end_date := strftimeYMD end_date }]
  dimensions := ["year", "month"]
  metrics := ["totalUsers", "screenPageViews"]
  dimension_filter :=
    { filter :=
        { field_name := "pagePath",
          string_filter := { match_type := MatchType.fullRegexp, value := regex } } }

/-- The dict built for one response row inside the loop of fetch_ga4_data,
with Python evaluation order: dimension indexing for the Year_Month
f-string, then each metric indexed and passed through int(). -/
def flattenRow (site_name regex : String) (row : ResponseRow) : Except Err ReportRow :=
  match row.dimension_values.get? 0 with
  | none => .error .indexError
  | some d0 =>
  match row.dimension_values.get? 1 with
  | none => .error .indexError
  | some d1 =>
  match row.metric_values.get? 0 with
  | none => .error .indexError
  | some m0 =>
  match pyInt m0.value with
  | none => .error (.malformedMetric m0.value)
  | some tu =>
  match row.metric_values.get? 1 with
  | none => .error .indexError
  | some m1 =>
  match pyInt m1.value with
  | none => .error (.malformedMetric m1.value)
  | some pv =>
  .ok { Site := site_name,
        Year_Month := d0.value ++ "-" ++ zfill 2 d1.value,
        Total_Users := tu,
        Pageviews := pv,
        Regex := regex }

/-- Run a fallible step over a list, stopping at the first error; the
Except-monad image of a Python for loop that can raise. -/
def mapMExcept (f : α → Except Err β) : List α → Except Err (List β)
  | [] => .ok []
  | a :: l =>
    match f a with
    | .error e => .error e
    | .ok b =>
      match mapMExcept f l with
      | .error e => .error e
      | .ok bs => .ok (b :: bs)

/-- fetch_ga4_data: build the request, call the service, flatten every
response row; any exception propagates to the caller. -/
def fetch_ga4_data (client : Backend) (property_id site_name regex : String)
    (start_date end_date : PyDate) : Except Err (List ReportRow) :=
  match client (mkRequest property_id regex start_date end_date) with
  | .error msg => .error (.serviceCall msg)
  | .ok response => mapMExcept (flattenRow site_name regex) response.rows

/-! ## The static property directory (src/app.py lines 17-55) -/

/-- The property-id to site-name table, in source order. -/
def view_id_name_mapping : List (String × String) :=
  [("424738282", "DNA English"),
   ("424752920", "DNA Hindi"),
   ("424754635", "ICOM Hindi"),
   ("424788272", "ICOM English"),
   ("424733916", "Zee Bengali"),
   ("424734706", "Zee Odisha"),
   ("424737620", "Zee PHH"),
   ("424740324", "Zee Rajasthan"),
   ("424747120", "Zee Salaam"),
   ("424748591", "Zee Gujarati"),
   ("424751136", "Zee Hindustan"),
   ("424751758", "Zee English"),
   ("424752916", "Zee Telugu"),
   ("424755684", "Zee UP UK"),
   ("424756835", "Zee Hindi"),
   ("424807672", "Delhi NCR Harayana"),
   ("424807363", "Zee Bihar Jharkhand"),
   ("424803703", "Zee MP CG"),
   ("424803190", "Zee Tamil"),
   ("424802051", "Zee Malayalam"),
   ("424797141", "Zee Marathi"),
   ("424784463", "Zee Kannada"),
   ("449141964", "WION"),
   ("424815185", "Zee Biz English"),
   ("424771953", "Zee Biz Hindi"),
   ("425235134", "HealthSite English"),
   ("425228038", "HealthSite Hindi"),
   ("379536469", "Screenbox"),
   ("425234014", "Bollywood Life English"),
   ("425220388", "Bollywood Life Hindi"),
   ("425245314", "CricketCountry English"),
   ("425237720", "CricketCountry Hindi"),
   ("425228771", "Techlusive English"),
   ("425219576", "Techlusive Hindi"),
   ("374981587", "MyLord"),
   ("432213368", "Petuz"),
   ("429575403", "Travel by India")]

/-- Dict lookup on the property directory. -/
def lookupName (property_id : String) : Option String :=
  view_id_name_mapping.lookup property_id

/-! ## The fetch loop of the main block (src/app.py lines 145-159) -/

/-- The inner loop over the regex list for one property: each fetch extends
the running data with its rows; the first exception aborts. -/
def fetchForSite (client : Backend) (property_id site_name : String)
    (regexes : List String) (start_date end_date : PyDate) :
    Except Err (List ReportRow) :=
  match mapMExcept
      (fun regex => fetch_ga4_data client property_id site_name regex start_date end_date)
      regexes with
  | .error e => .error e
  | .ok lists => .ok lists.flatten

/-- The outer loop over the selected properties: dict lookup of the site
name, then the inner regex loop; rows accumulate in traversal order. -/
def runMatrix (client : Backend) (sites regexes : List String)
    (start_date end_date : PyDate) : Except Err (List ReportRow) :=
  match mapMExcept
      (fun property_id =>
        match lookupName property_id with
        | none => .error (.keyError property_id)
        | some site_name =>
            fetchForSite client property_id site_name regexes start_date end_date)
      sites with
  | .error e => .error e
  | .ok lists => .ok lists.flatten

/-! ## CSV serialization (pandas DataFrame.to_csv with index=False) -/

/-- Whether minimal CSV quoting applies to a field: it contains the
delimiter, the quote character, or a line terminator character. -/
def csvNeedsQuote (s : String) : Bool :=
  s.data.any (fun c => c = ',' || c = '"' || c = '\n' || c = '\r')

/-- Render one CSV field: verbatim unless quoting applies, in which case
the field is wrapped in quotes with inner quotes doubled. -/
def csvField (s : String) : String :=
  if csvNeedsQuote s then
    "\"" ++ ⟨s.data.flatMap (fun c => if c = '"' then ['"', '"'] else [c])⟩ ++ "\""
  else s

/-- The header line: the DataFrame columns are the dict keys in insertion
order. -/
def csvHeader : String := "Site,Year_Month,Total_Users,Pageviews,Regex"

/-- One CSV data line for a ReportRow, fields in column order. -/
def csvLine (r : ReportRow) : String :=
  csvField r.Site ++ "," ++ csvField r.Year_Month ++ "," ++ toString r.Total_Users ++ "," ++
    toString r.Pageviews ++ "," ++ csvField r.Regex

/-- DataFrame(final_data).to_csv(index=False): the header then one line
per row in dataset order, each line terminated by a newline. -/
def to_csv (rows : List ReportRow) : String :=
  csvHeader ++ "\n" ++ String.join (rows.map (fun r => csvLine r ++ "\n"))

/-! ## The main block (src/app.py lines 124-175) -/

/-- The file offered by st.download_button. -/
structure Download where
  filename : String
  mime : String
  content : String
deriving Repr, DecidableEq

/-- The one user-visible condition a run ends in: a validation-gate error,
an uncaught exception while fetching, a success with the table and the
download, or the no-data warning. -/
inductive Outcome where
  | inputError (msg : String)
  | fetchFailure (e : Err)
  | success (table : List ReportRow) (download : Download)
  | noData
deriving Repr, DecidableEq

/-- The regex list derived from the text area: one pattern per non-blank
line, stripped, order preserved, no dedup. -/
def regexListOf (regex_input : String) : List String :=
  ((pySplitlines regex_input).filter (fun r => pyStrip r ≠ "")).map pyStrip

/-- The main block behind the fetch button: the three validation gates in
order, then the nested fetch loop, then rendering and export. The backend
stands for the client built from the credentials. -/
def mainRun (client : Backend) (cred_file : Option String) (selected_sites : List String)
    (regex_input : String) (start_date end_date : PyDate) : Outcome :=
  if cred_file.isNone then
    .inputError "❌ Upload GA4 Service Account JSON"
  else if selected_sites.isEmpty then
    .inputError "❌ Select at least one site"
  else if pyStrip regex_input = "" then
    .inputError "❌ Enter at least one regex"
  else
    match runMatrix client selected_sites (regexListOf regex_input) start_date end_date with
    | .error e => .fetchFailure e
    | .ok final_data =>
      if final_data.isEmpty then .noData
      else
        .success final_data
          { filename := "ga4_category_report.csv",
            mime := "text/csv",
            content := to_csv final_data }

/-! ## Concrete backends used to exercise the theorems -/

/-- A backend that answers every request with one fixed response row:
year 2024, month 8, totalUsers 150, screenPageViews 300. -/
def backendOneRow : Backend :=
  fun _ => .ok { rows := [{ dimension_values := [{ value := "2024" }, { value := "8" }],
                            metric_values := [{ value := "150" }, { value := "300" }] }] }

/-- A backend that answers every request with an empty row list. -/
def backendNoRows : Backend :=
  fun _ => .ok { rows := [] }

/-- A backend whose single response row carries a non-numeric first
metric value. -/
def backendBadMetric : Backend :=
  fun _ => .ok { rows := [{ dimension_values := [{ value := "2024" }, { value := "8" }],
                            metric_values := [{ value := "abc" }, { value := "300" }] }] }

/-- A second rendering of backendOneRow, syntactically different but
pointwise equal to it. -/
def backendOneRowAlt : Backend :=
  fun _ => .ok { rows := [] ++ [{ dimension_values := [{ value := "2024" }, { value := "8" }],
                                  metric_values := [{ value := "150" }, { value := "300" }] }] }

/-- The site-name function matching the property directory on the two DNA
properties. -/
def nmDNA (pid : String) : String :=
  if pid = "424738282" then "DNA English" else "DNA Hindi"

/-- The per-call row lists backendOneRow induces for the DNA properties. -/
def rowsDNA (pid rg : String) : List ReportRow :=
  [{ Site := nmDNA pid, Year_Month := "2024-08", Total_Users := 150, Pageviews := 300,
     Regex := rg }]

/-! ## Helper lemmas -/

theorem decChars_ne_nil (n : Nat) : decChars n ≠ [] := by
  rw [decChars]
  split <;> simp

theorem decChars_all_digit (n : Nat) : ∀ c ∈ decChars n, c.isDigit := by
  induction n using Nat.strong_induction_on with
  | _ n ih =>
    rw [decChars]
    split
    · intro c hc
      simp only [List.mem_singleton] at hc
      subst hc
      have h10 : n < 10 := by assumption
      interval_cases n <;> decide
    · intro c hc
      rcases List.mem_append.1 hc with h | h
      · exact ih (n / 10) (Nat.div_lt_self (by omega) (by omega)) c h
      · simp only [List.mem_singleton] at h
        subst h
        have : n % 10 < 10 := Nat.mod_lt _ (by omega)
        set k := n % 10 with hk
        interval_cases k <;> decide

theorem decChars_length_pos (n : Nat) : 1 ≤ (decChars n).length := by
  cases h : decChars n with
  | nil => exact absurd h (decChars_ne_nil n)
  | cons a l => simp

theorem decChars_length_step {n : Nat} (h : 10 ≤ n) :
    (decChars n).length = (decChars (n / 10)).length + 1 := by
  rw [decChars]
  rw [dif_neg (by omega)]
  simp

theorem decChars_length_ge_four {n : Nat} (h : 1000 ≤ n) :
    4 ≤ (decChars n).length := by
  have h1 : (decChars n).length = (decChars (n / 10)).length + 1 :=
    decChars_length_step (by omega)
  have h10 : 100 ≤ n / 10 := by omega
  have h2 : (decChars (n / 10)).length = (decChars (n / 10 / 10)).length + 1 :=
    decChars_length_step (by omega)
  have h100 : 10 ≤ n / 10 / 10 := by
    rw [Nat.div_div_eq_div_mul]
    omega
  have h3 : (decChars (n / 10 / 10)).length = (decChars (n / 10 / 10 / 10)).length + 1 :=
    decChars_length_step h100
  have h4 := decChars_length_pos (n / 10 / 10 / 10)
  omega

theorem zfill_eq_leftPadZero {s : String}
    (h : ∀ c ∈ s.data, c ≠ '+' ∧ c ≠ '-') (w : Nat) :
    zfill w s = leftPadZero w s := by
  unfold zfill leftPadZero
  split
  · rename_i hle
    have : w - s.length = 0 := by omega
    rw [this]
    simp
  · cases hs : s.data with
    | nil =>
      simp
    | cons c rest =>
      have hc := h c (by rw [hs]; exact List.mem_cons_self c rest)
      have : (c = '+' || c = '-') = false := by
        simp [hc.1, hc.2]
      simp only [this]
      simp

theorem decRepr_not_sign (n : Nat) : ∀ c ∈ (decRepr n).data, c ≠ '+' ∧ c ≠ '-' := by
  intro c hc
  have hd := decChars_all_digit n c hc
  constructor <;> rintro rfl <;> simp [Char.isDigit] at hd

/-- The strftime rendering agrees with the ISO-8601 rendering of the spec
whenever the year has four digits. -/
theorem strftimeYMD_eq_iso {d : PyDate} (h : 1000 ≤ d.year) :
    strftimeYMD d = toISOString8601Date d := by
  unfold strftimeYMD toISOString8601Date
  have hy : leftPadZero 4 (decRepr d.year) = decRepr d.year := by
    unfold leftPadZero
    have : 4 - (decRepr d.year).length = 0 := by
      have := decChars_length_ge_four h
      simp only [decRepr, String.length] at *
      omega
    rw [this]
    simp
  rw [hy, zfill_eq_leftPadZero (decRepr_not_sign d.month),
    zfill_eq_leftPadZero (decRepr_not_sign d.day)]

theorem mapMExcept_ok_of_forall {f : α → Except Err β} {g : α → β} :
    ∀ {l : List α}, (∀ a ∈ l, f a = .ok (g a)) → mapMExcept f l = .ok (l.map g)
  | [], _ => rfl
  | a :: l, h => by
    have ha := h a (List.mem_cons_self a l)
    have hl := mapMExcept_ok_of_forall (f := f) (g := g) (l := l)
      (fun x hx => h x (List.mem_cons_of_mem a hx))
    simp [mapMExcept, ha, hl]

theorem mapMExcept_mem_of_ok {f : α → Except Err β} :
    ∀ {l : List α} {out : List β}, mapMExcept f l = .ok out →
      ∀ b ∈ out, ∃ a ∈ l, f a = .ok b := by
  intro l
  induction l with
  | nil =>
    intro out h b hb
    simp [mapMExcept] at h
    subst h
    simp at hb
  | cons a l ih =>
    intro out h b hb
    simp only [mapMExcept] at h
    cases hfa : f a with
    | error e => rw [hfa] at h; exact absurd h (by simp)
    | ok b0 =>
      rw [hfa] at h
      cases hrest : mapMExcept f l with
      | error e => rw [hrest] at h; exact absurd h (by simp)
      | ok bs =>
        rw [hrest] at h
        simp only [Except.ok.injEq] at h
        subst h
        rcases List.mem_cons.1 hb with rfl | hb
        · exact ⟨a, List.mem_cons_self a l, hfa⟩
        · rcases ih hrest b hb with ⟨x, hx, hfx⟩
          exact ⟨x, List.mem_cons_of_mem a hx, hfx⟩

theorem mapMExcept_forall_of_ok {f : α → Except Err β} :
    ∀ {l : List α} {out : List β}, mapMExcept f l = .ok out →
      ∀ a ∈ l, ∃ b ∈ out, f a = .ok b := by
  intro l
  induction l with
  | nil => intro out _ a ha; simp at ha
  | cons a l ih =>
    intro out h x hx
    simp only [mapMExcept] at h
    cases hfa : f a with
    | error e => rw [hfa] at h; exact absurd h (by simp)
    | ok b0 =>
      rw [hfa] at h
      cases hrest : mapMExcept f l with
      | error e => rw [hrest] at h; exact absurd h (by simp)
      | ok bs =>
        rw [hrest] at h
        simp only [Except.ok.injEq] at h
        subst h
        rcases List.mem_cons.1 hx with rfl | hx
        · exact ⟨b0, List.mem_cons_self b0 bs, hfa⟩
        · rcases ih hrest x hx with ⟨b, hb, hfb⟩
          exact ⟨b, List.mem_cons_of_mem b0 hb, hfb⟩

/-- Shape of a successfully flattened row: the Site and Regex fields come
straight from the arguments. -/
theorem flattenRow_ok_fields {site regex : String} {row : ResponseRow} {r : ReportRow}
    (h : flattenRow site regex row = .ok r) : r.Site = site ∧ r.Regex = regex := by
  unfold flattenRow at h
  repeat' split at h
  all_goals first
    | (simp only [Except.ok.injEq] at h; subst h; exact ⟨rfl, rfl⟩)
    | exact absurd h (by simp)

/-- Every row a successful fetch returns carries the site name and the
regex of that call. -/
theorem fetch_ok_fields {client : Backend} {pid site regex : String}
    {s e : PyDate} {rows : List ReportRow}
    (h : fetch_ga4_data client pid site regex s e = .ok rows) :
    ∀ r ∈ rows, r.Site = site ∧ r.Regex = regex := by
  intro r hr
  unfold fetch_ga4_data at h
  split at h
  · exact absurd h (by simp)
  · rcases mapMExcept_mem_of_ok h r hr with ⟨row, _, hrow⟩
    exact flattenRow_ok_fields hrow

/-- When every fetch of the matrix succeeds, the final data is the nested
flatMap over properties then regexes, in traversal order. -/
theorem runMatrix_ok_of_forall {client : Backend} {sites regexes : List String}
    {s e : PyDate} {nm : String → String} {rows : String → String → List ReportRow}
    (hnm : ∀ pid ∈ sites, lookupName pid = some (nm pid))
    (hrows : ∀ pid ∈ sites, ∀ rg ∈ regexes,
      fetch_ga4_data client pid (nm pid) rg s e = .ok (rows pid rg)) :
    runMatrix client sites regexes s e =
      .ok (sites.flatMap (fun pid => regexes.flatMap (rows pid))) := by
  unfold runMatrix
  have houter : mapMExcept
      (fun property_id =>
        match lookupName property_id with
        | none => .error (.keyError property_id)
        | some site_name => fetchForSite client property_id site_name regexes s e)
      sites = .ok (sites.map (fun pid => regexes.flatMap (rows pid))) := by
    apply mapMExcept_ok_of_forall
    intro pid hp
    have hinner := mapMExcept_ok_of_forall
      (f := fun rg => fetch_ga4_data client pid (nm pid) rg s e) (g := rows pid)
      (fun rg hrg => hrows pid hp rg hrg)
    simp only [hnm pid hp, fetchForSite, hinner, List.flatMap_def]
  rw [houter]
  simp [List.flatMap_def]

/-- Provenance of every row of a successful run: it was produced by some
selected property and some regex of the list, and carries the looked-up
site name and that regex. -/
theorem runMatrix_mem_of_ok {client : Backend} {sites regexes : List String}
    {s e : PyDate} {data : List ReportRow}
    (h : runMatrix client sites regexes s e = .ok data) :
    ∀ r ∈ data, ∃ pid ∈ sites, ∃ rg ∈ regexes,
      r.Regex = rg ∧ lookupName pid = some r.Site := by
  intro r hr
  unfold runMatrix at h
  cases houter : mapMExcept
      (fun property_id =>
        match lookupName property_id with
        | none => .error (.keyError property_id)
        | some site_name => fetchForSite client property_id site_name regexes s e)
      sites with
  | error e0 => rw [houter] at h; exact absurd h (by simp)
  | ok lists =>
    rw [houter] at h
    simp only [Except.ok.injEq] at h
    subst h
    rcases List.mem_flatten.1 hr with ⟨l, hl, hrl⟩
    rcases mapMExcept_mem_of_ok houter l hl with ⟨pid, hpid, hout⟩
    cases hlook : lookupName pid with
    | none => rw [hlook] at hout; exact absurd hout (by simp)
    | some site =>
      rw [hlook] at hout
      simp only at hout
      unfold fetchForSite at hout
      cases hinner : mapMExcept
          (fun regex => fetch_ga4_data client pid site regex s e) regexes with
      | error e0 => rw [hinner] at hout; exact absurd hout (by simp)
      | ok lists2 =>
        rw [hinner] at hout
        simp only [Except.ok.injEq] at hout
        subst hout
        rcases List.mem_flatten.1 hrl with ⟨l2, hl2, hrl2⟩
        rcases mapMExcept_mem_of_ok hinner l2 hl2 with ⟨rg, hrg, hfetch⟩
        have hf := fetch_ok_fields hfetch r hrl2
        exact ⟨pid, hpid, rg, hrg, hf.2, by rw [hlook, hf.1]⟩

/-- When a run completes with an empty dataset, every fetch of the matrix
returned zero rows. -/
theorem runMatrix_ok_nil_forall {client : Backend} {sites regexes : List String}
    {s e : PyDate}
    (h : runMatrix client sites regexes s e = .ok []) :
    ∀ pid ∈ sites, ∀ site, lookupName pid = some site →
      ∀ rg ∈ regexes, fetch_ga4_data client pid site rg s e = .ok [] := by
  intro pid hpid site hlook rg hrg
  unfold runMatrix at h
  cases houter : mapMExcept
      (fun property_id =>
        match lookupName property_id with
        | none => .error (.keyError property_id)
        | some site_name => fetchForSite client property_id site_name regexes s e)
      sites with
  | error e0 => rw [houter] at h; exact absurd h (by simp)
  | ok lists =>
    rw [houter] at h
    simp only [Except.ok.injEq] at h
    have hnil : ∀ l ∈ lists, l = [] := List.flatten_eq_nil_iff.1 h
    rcases mapMExcept_forall_of_ok houter pid hpid with ⟨l, hl, hout⟩
    rw [hlook] at hout
    simp only at hout
    rw [hnil l hl] at hout
    unfold fetchForSite at hout
    cases hinner : mapMExcept
        (fun regex => fetch_ga4_data client pid site regex s e) regexes with
    | error e0 => rw [hinner] at hout; exact absurd hout (by simp)
    | ok lists2 =>
      rw [hinner] at hout
      simp only [Except.ok.injEq] at hout
      have hnil2 : ∀ l2 ∈ lists2, l2 = [] := List.flatten_eq_nil_iff.1 hout
      rcases mapMExcept_forall_of_ok hinner rg hrg with ⟨l2, hl2, hfetch⟩
      rw [hnil2 l2 hl2] at hfetch
      exact hfetch

/-- Shape of a successfully flattened row: the Year_Month field is the
first dimension value, a dash, and the zfilled second dimension value. -/
theorem flattenRow_ok_yearMonth {site regex : String} {d0 d1 : DimensionValue}
    {ds : List DimensionValue} {ms : List MetricValue} {r : ReportRow}
    (h : flattenRow site regex ⟨d0 :: d1 :: ds, ms⟩ = .ok r) :
    r.Year_Month = d0.value ++ "-" ++ zfill 2 d1.value := by
  unfold flattenRow at h
  simp only [List.get?] at h
  repeat' split at h
  all_goals first
    | (simp only [Except.ok.injEq] at h; subst h; rfl)
    | exact absurd h (by simp)

/-! ## The claims -/

/-- C1: for every invocation of fetch_ga4_data, the request it builds
specifies the property scope for the given id, exactly one date range
whose start and end are the given dates in YYYY-MM-DD form, exactly the
dimensions year and month in that order, exactly the metrics totalUsers
and screenPageViews in that order, and a dimension filter requiring
pagePath to fully match the regex (FULL_REGEXP, not substring). The
four-digit year form assumes years of at least 1000, as the date widgets
supply. -/
theorem c1_request_shape (pid regex : String) (s e : PyDate)
    (hs : 1000 ≤ s.year) (he : 1000 ≤ e.year) :
    (mkRequest pid regex s e).property = "properties/" ++ pid ∧
    (mkRequest pid regex s e).date_ranges =
      [{ start_date := toISOString8601Date s, end_date := toISOString8601Date e }] ∧
    (mkRequest pid regex s e).dimensions = ["year", "month"] ∧
    (mkRequest pid regex s e).metrics = ["totalUsers", "screenPageViews"] ∧
    (mkRequest pid regex s e).dimension_filter =
      { filter := { field_name := "pagePath"
                    string_filter := { match_type := MatchType.fullRegexp, value := regex } } } := by
  refine ⟨rfl, ?_, rfl, rfl, rfl⟩
  simp only [mkRequest, strftimeYMD_eq_iso hs, strftimeYMD_eq_iso he]

/-- C1 witness at the example of the spec. -/
theorem c1_request_shape_witness :
    1000 ≤ (PyDate.mk 2024 8 1).year ∧ 1000 ≤ (PyDate.mk 2024 8 31).year ∧
    ((mkRequest "424738282" ".*(/mp/).*" ⟨2024, 8, 1⟩ ⟨2024, 8, 31⟩).property =
        "properties/" ++ "424738282" ∧
      (mkRequest "424738282" ".*(/mp/).*" ⟨2024, 8, 1⟩ ⟨2024, 8, 31⟩).date_ranges =
        [{ start_date := toISOString8601Date ⟨2024, 8, 1⟩,
           end_date := toISOString8601Date ⟨2024, 8, 31⟩ }] ∧
      (mkRequest "424738282" ".*(/mp/).*" ⟨2024, 8, 1⟩ ⟨2024, 8, 31⟩).dimensions =
        ["year", "month"] ∧
      (mkRequest "424738282" ".*(/mp/).*" ⟨2024, 8, 1⟩ ⟨2024, 8, 31⟩).metrics =
        ["totalUsers", "screenPageViews"] ∧
      (mkRequest "424738282" ".*(/mp/).*" ⟨2024, 8, 1⟩ ⟨2024, 8, 31⟩).dimension_filter =
        { filter := { field_name := "pagePath"
                      string_filter := { match_type := MatchType.fullRegexp
                                         value := ".*(/mp/).*" } } }) :=
  ⟨by decide, by decide,
    c1_request_shape "424738282" ".*(/mp/).*" ⟨2024, 8, 1⟩ ⟨2024, 8, 31⟩
      (by decide) (by decide)⟩

/-- C2: a flattened row has Year_Month equal to the year value, a literal
dash, and the month value left-padded with the zero digit to width two;
the month dimension value consists of digits. -/
theorem c2_year_month (site regex : String) (d0 d1 : DimensionValue)
    (ds : List DimensionValue) (ms : List MetricValue) (r : ReportRow)
    (hm : ∀ c ∈ d1.value.data, c.isDigit)
    (h : flattenRow site regex ⟨d0 :: d1 :: ds, ms⟩ = .ok r) :
    r.Year_Month = d0.value ++ "-" ++ leftPadZero 2 d1.value := by
  have hy := flattenRow_ok_yearMonth h
  have hns : ∀ c ∈ d1.value.data, c ≠ '+' ∧ c ≠ '-' := by
    intro c hc
    have hd := hm c hc
    constructor <;> rintro rfl <;> simp [Char.isDigit] at hd
  rw [hy, zfill_eq_leftPadZero hns]

/-- C2 witness: year 2024 and month 3 yield 2024-03. -/
theorem c2_year_month_witness :
    (∀ c ∈ ("3" : String).data, c.isDigit) ∧
    (flattenRow "DNA English" ".*" ⟨[⟨"2024"⟩, ⟨"3"⟩], [⟨"150"⟩, ⟨"300"⟩]⟩ =
      .ok { Site := "DNA English", Year_Month := "2024-03", Total_Users := 150,
            Pageviews := 300, Regex := ".*" }) ∧
    ("2024-03" : String) = "2024" ++ "-" ++ leftPadZero 2 "3" := by
  refine ⟨by decide, rfl, ?_⟩
  exact c2_year_month "DNA English" ".*" ⟨"2024"⟩ ⟨"3"⟩ [] [⟨"150"⟩, ⟨"300"⟩]
      { Site := "DNA English", Year_Month := "2024-03", Total_Users := 150,
        Pageviews := 300, Regex := ".*" }
      (by decide) rfl

/-- C3: with every call of the matrix succeeding, the final dataset is
the concatenation of the per-call row lists in exact nested traversal
order: properties outer, regexes inner, each call keeping its response
rows in order. -/
theorem c3_traversal_order (client : Backend) (sites regexes : List String)
    (s e : PyDate) (nm : String → String) (rows : String → String → List ReportRow)
    (hnm : ∀ pid ∈ sites, lookupName pid = some (nm pid))
    (hrows : ∀ pid ∈ sites, ∀ rg ∈ regexes,
      fetch_ga4_data client pid (nm pid) rg s e = .ok (rows pid rg)) :
    runMatrix client sites regexes s e =
      .ok (sites.flatMap (fun pid => regexes.flatMap (rows pid))) :=
  runMatrix_ok_of_forall hnm hrows

/-- C3 witness: two properties and two regexes give exactly the order
P1 R1, P1 R2, P2 R1, P2 R2. -/
theorem c3_traversal_order_witness :
    (∀ pid ∈ ["424738282", "424752920"], lookupName pid = some (nmDNA pid)) ∧
    (∀ pid ∈ ["424738282", "424752920"], ∀ rg ∈ ["a", "b"],
      fetch_ga4_data backendOneRow pid (nmDNA pid) rg ⟨2024, 8, 1⟩ ⟨2024, 8, 31⟩ =
        .ok (rowsDNA pid rg)) ∧
    runMatrix backendOneRow ["424738282", "424752920"] ["a", "b"] ⟨2024, 8, 1⟩ ⟨2024, 8, 31⟩ =
      .ok [{ Site := "DNA English", Year_Month := "2024-08", Total_Users := 150,
             Pageviews := 300, Regex := "a" },
           { Site := "DNA English", Year_Month := "2024-08", Total_Users := 150,
             Pageviews := 300, Regex := "b" },
           { Site := "DNA Hindi", Year_Month := "2024-08", Total_Users := 150,
             Pageviews := 300, Regex := "a" },
           { Site := "DNA Hindi", Year_Month := "2024-08", Total_Users := 150,
             Pageviews := 300, Regex := "b" }] := by
  have hnm : ∀ pid ∈ ["424738282", "424752920"], lookupName pid = some (nmDNA pid) := by
    intro pid hp
    fin_cases hp <;> rfl
  have hrows : ∀ pid ∈ ["424738282", "424752920"], ∀ rg ∈ ["a", "b"],
      fetch_ga4_data backendOneRow pid (nmDNA pid) rg ⟨2024, 8, 1⟩ ⟨2024, 8, 31⟩ =
        .ok (rowsDNA pid rg) := by
    intro pid hp rg hrg
    fin_cases hp <;> fin_cases hrg <;> rfl
  exact ⟨hnm, hrows,
    c3_traversal_order backendOneRow ["424738282", "424752920"] ["a", "b"]
      ⟨2024, 8, 1⟩ ⟨2024, 8, 31⟩ nmDNA rowsDNA hnm hrows⟩

/-- C4: the validation gates check, in order, missing credentials, then
missing site selection, then blank regex text; exactly one input error is
reported (the first failing gate), the outcome does not depend on the
backend when a gate fails (so no network activity occurs), and with all
three inputs missing the reported condition is the missing-credentials
one. -/
theorem c4_validation_gates (b1 b2 : Backend) (cred : Option String)
    (sites : List String) (rtext : String) (s e : PyDate) :
    (cred = none →
      mainRun b1 cred sites rtext s e = .inputError "❌ Upload GA4 Service Account JSON") ∧
    (cred ≠ none → sites = [] →
      mainRun b1 cred sites rtext s e = .inputError "❌ Select at least one site") ∧
    (cred ≠ none → sites ≠ [] → pyStrip rtext = "" →
      mainRun b1 cred sites rtext s e = .inputError "❌ Enter at least one regex") ∧
    ((cred = none ∨ sites = [] ∨ pyStrip rtext = "") →
      mainRun b1 cred sites rtext s e = mainRun b2 cred sites rtext s e) := by
  refine ⟨?_, ?_, ?_, ?_⟩
  · rintro rfl
    rfl
  · intro hc hs
    cases cred with
    | none => exact absurd rfl hc
    | some c => subst hs; rfl
  · intro hc hs hr
    cases cred with
    | none => exact absurd rfl hc
    | some c =>
      cases sites with
      | nil => exact absurd rfl hs
      | cons a l => simp [mainRun, hr]
  · rintro (rfl | rfl | hr)
    · rfl
    · cases cred with
      | none => rfl
      | some c => rfl
    · cases cred with
      | none => rfl
      | some c =>
        cases sites with
        | nil => rfl
        | cons a l => simp [mainRun, hr]

/-- C4 witness: with no credentials, no sites and no regex text, the run
reports the missing-credentials condition and ignores the backend. -/
theorem c4_validation_gates_witness :
    ((none : Option String) = none ∨ ([] : List String) = [] ∨ pyStrip "" = "") ∧
    mainRun backendOneRow none [] "" ⟨2024, 8, 1⟩ ⟨2024, 8, 31⟩ =
      .inputError "❌ Upload GA4 Service Account JSON" ∧
    mainRun backendOneRow none [] "" ⟨2024, 8, 1⟩ ⟨2024, 8, 31⟩ =
      mainRun backendNoRows none [] "" ⟨2024, 8, 1⟩ ⟨2024, 8, 31⟩ :=
  ⟨Or.inl rfl,
    (c4_validation_gates backendOneRow backendNoRows none [] "" ⟨2024, 8, 1⟩ ⟨2024, 8, 31⟩).1 rfl,
    (c4_validation_gates backendOneRow backendNoRows none [] "" ⟨2024, 8, 1⟩
      ⟨2024, 8, 31⟩).2.2.2 (Or.inl rfl)⟩

/-- C5 as stated fails: a Regex field containing a comma is written in
CSV-quoted form, so the exported line is not the verbatim comma-join of
the field values. -/
theorem c5_csv_counterexample :
    to_csv [{ Site := "S", Year_Month := "2024-08", Total_Users := 1, Pageviews := 2,
              Regex := "a,b" }] =
      "Site,Year_Month,Total_Users,Pageviews,Regex\n" ++ "S,2024-08,1,2,\"a,b\"\n" ∧
    to_csv [{ Site := "S", Year_Month := "2024-08", Total_Users := 1, Pageviews := 2,
              Regex := "a,b" }] ≠
      "Site,Year_Month,Total_Users,Pageviews,Regex\n" ++ "S,2024-08,1,2,a,b\n" := by
  constructor
  · rfl
  · decide

/-- C5 amended: the exported file is named ga4_category_report.csv with
MIME text/csv, its first line is exactly the fixed header, it has one
line per ReportRow in dataset order with no re-sorting, deduplication or
aggregation, and every field is written verbatim except that a field
containing a comma, quote or line break is CSV-quoted with inner quotes
doubled. -/
theorem c5_csv_export (client : Backend) (cred : Option String) (sites : List String)
    (rtext : String) (s e : PyDate) (tbl : List ReportRow) (dl : Download)
    (h : mainRun client cred sites rtext s e = .success tbl dl) :
    dl.filename = "ga4_category_report.csv" ∧ dl.mime = "text/csv" ∧
    csvHeader = "Site,Year_Month,Total_Users,Pageviews,Regex" ∧
    dl.content = csvHeader ++ "\n" ++ String.join (tbl.map (fun r => csvLine r ++ "\n")) ∧
    (∀ r ∈ tbl, csvNeedsQuote r.Site = false → csvNeedsQuote r.Year_Month = false →
      csvNeedsQuote r.Regex = false →
      csvLine r = r.Site ++ "," ++ r.Year_Month ++ "," ++ toString r.Total_Users ++ "," ++
        toString r.Pageviews ++ "," ++ r.Regex) := by
  unfold mainRun at h
  repeat' split at h
  all_goals first
    | (obtain ⟨rfl, h2⟩ := Outcome.success.inj h
       subst h2
       refine ⟨rfl, rfl, rfl, rfl, ?_⟩
       intro r _ h1 h2 h3
       simp [csvLine, csvField, h1, h2, h3])
    | exact absurd h (by simp)

/-- C5 witness: a successful run over one property and one regex exports
the expected file. -/
theorem c5_csv_export_witness :
    mainRun backendOneRow (some "cred") ["424738282"] ".*" ⟨2024, 8, 1⟩ ⟨2024, 8, 31⟩ =
      .success
        [{ Site := "DNA English", Year_Month := "2024-08", Total_Users := 150,
           Pageviews := 300, Regex := ".*" }]
        { filename := "ga4_category_report.csv", mime := "text/csv",
          content := "Site,Year_Month,Total_Users,Pageviews,Regex\nDNA English,2024-08,150,300,.*\n" } ∧
    ({ filename := "ga4_category_report.csv", mime := "text/csv",
       content := "Site,Year_Month,Total_Users,Pageviews,Regex\nDNA English,2024-08,150,300,.*\n" } : Download).filename =
      "ga4_category_report.csv" :=
  ⟨rfl,
    (c5_csv_export backendOneRow (some "cred") ["424738282"] ".*" ⟨2024, 8, 1⟩ ⟨2024, 8, 31⟩
      [{ Site := "DNA English", Year_Month := "2024-08", Total_Users := 150,
         Pageviews := 300, Regex := ".*" }]
      { filename := "ga4_category_report.csv", mime := "text/csv",
        content := "Site,Year_Month,Total_Users,Pageviews,Regex\nDNA English,2024-08,150,300,.*\n" }
      rfl).1⟩

/-- C6: metric values go through int parsing, so a non-numeric metric
value fails the fetch with a malformed-metric error instead of being
coerced to zero, and once fetching has begun any error on any single
call makes the whole run end in a fetch failure that carries no dataset. -/
theorem c6_metric_failure_aborts (site regex : String) (m0 : MetricValue)
    (d0 d1 : DimensionValue) (ds : List DimensionValue) (ms : List MetricValue)
    (hv : pyInt m0.value = none)
    (client : Backend) (cred : Option String) (sites : List String)
    (rtext : String) (s e : PyDate) (err : Err)
    (hcred : cred ≠ none) (hsites : sites ≠ []) (hreg : pyStrip rtext ≠ "")
    (herr : runMatrix client sites (regexListOf rtext) s e = .error err) :
    flattenRow site regex ⟨d0 :: d1 :: ds, m0 :: ms⟩ = .error (.malformedMetric m0.value) ∧
    mainRun client cred sites rtext s e = .fetchFailure err := by
  constructor
  · unfold flattenRow
    simp only [List.get?]
    rw [hv]
  · cases cred with
    | none => exact absurd rfl hcred
    | some c =>
      cases sites with
      | nil => exact absurd rfl hsites
      | cons a l => simp [mainRun, hreg, herr]

/-- C6 witness: a backend whose response carries the metric text abc
aborts the whole run. -/
theorem c6_metric_failure_aborts_witness :
    pyInt "abc" = none ∧
    runMatrix backendBadMetric ["424738282"] (regexListOf ".*") ⟨2024, 8, 1⟩ ⟨2024, 8, 31⟩ =
      .error (.malformedMetric "abc") ∧
    flattenRow "DNA English" ".*" ⟨[⟨"2024"⟩, ⟨"8"⟩], [⟨"abc"⟩, ⟨"300"⟩]⟩ =
      .error (.malformedMetric "abc") ∧
    mainRun backendBadMetric (some "cred") ["424738282"] ".*" ⟨2024, 8, 1⟩ ⟨2024, 8, 31⟩ =
      .fetchFailure (.malformedMetric "abc") := by
  refine ⟨rfl, rfl, ?_⟩
  exact c6_metric_failure_aborts "DNA English" ".*" ⟨"abc"⟩ ⟨"2024"⟩ ⟨"8"⟩ [] [⟨"300"⟩]
    rfl backendBadMetric (some "cred") ["424738282"] ".*" ⟨2024, 8, 1⟩ ⟨2024, 8, 31⟩
    (.malformedMetric "abc") (by simp) (by simp) (by decide) rfl

/-- C7: with the gates passed, if every call of the matrix returns zero
rows the run ends in the no-data condition, an outcome distinct from
every error; and conversely a no-data outcome means every fetch of the
matrix returned zero rows. -/
theorem c7_no_data (client : Backend) (cred : Option String) (sites : List String)
    (rtext : String) (s e : PyDate) (nm : String → String)
    (hcred : cred ≠ none) (hsites : sites ≠ []) (hreg : pyStrip rtext ≠ "")
    (hnm : ∀ pid ∈ sites, lookupName pid = some (nm pid)) :
    ((∀ pid ∈ sites, ∀ rg ∈ regexListOf rtext,
        fetch_ga4_data client pid (nm pid) rg s e = .ok []) →
      mainRun client cred sites rtext s e = .noData) ∧
    (mainRun client cred sites rtext s e = .noData →
      ∀ pid ∈ sites, ∀ rg ∈ regexListOf rtext,
        fetch_ga4_data client pid (nm pid) rg s e = .ok []) ∧
    (∀ e0 : Err, (Outcome.noData ≠ Outcome.fetchFailure e0)) ∧
    (∀ m : String, Outcome.noData ≠ Outcome.inputError m) := by
  have hc : cred.isNone = false := by
    cases cred with
    | none => exact absurd rfl hcred
    | some c => rfl
  have hs : sites.isEmpty = false := by
    cases sites with
    | nil => exact absurd rfl hsites
    | cons a l => rfl
  refine ⟨?_, ?_, by simp, by simp⟩
  · intro hall
    have hmat := @runMatrix_ok_of_forall client sites (regexListOf rtext) s e nm
      (fun _ _ => ([] : List ReportRow)) hnm (fun pid hp rg hrg => hall pid hp rg hrg)
    have hnil :
        (sites.flatMap fun pid => (regexListOf rtext).flatMap fun _ => ([] : List ReportRow)) =
          [] := by
      simp
    rw [hnil] at hmat
    simp [mainRun, hc, hs, hreg, hmat]
  · intro hmain pid hp rg hrg
    simp only [mainRun, hc, hs, hreg, Bool.false_eq_true, if_false] at hmain
    cases hmat : runMatrix client sites (regexListOf rtext) s e with
    | error e0 =>
      rw [hmat] at hmain
      exact absurd hmain (by simp)
    | ok fd =>
      rw [hmat] at hmain
      cases hfd : fd.isEmpty with
      | false => simp [hfd] at hmain
      | true =>
        have : fd = [] := List.isEmpty_iff.1 hfd
        subst this
        exact runMatrix_ok_nil_forall hmat pid hp (nm pid) (hnm pid hp) rg hrg

/-- C7 witness: one property, one regex, a backend with no rows. -/
theorem c7_no_data_witness :
    (some "cred" : Option String) ≠ none ∧ (["424738282"] : List String) ≠ [] ∧
    pyStrip ".*" ≠ "" ∧
    (∀ pid ∈ ["424738282"], lookupName pid = some (nmDNA pid)) ∧
    (∀ pid ∈ ["424738282"], ∀ rg ∈ regexListOf ".*",
      fetch_ga4_data backendNoRows pid (nmDNA pid) rg ⟨2024, 8, 1⟩ ⟨2024, 8, 31⟩ = .ok []) ∧
    mainRun backendNoRows (some "cred") ["424738282"] ".*" ⟨2024, 8, 1⟩ ⟨2024, 8, 31⟩ =
      .noData := by
  have hnm : ∀ pid ∈ ["424738282"], lookupName pid = some (nmDNA pid) := by
    intro pid hp
    fin_cases hp
    rfl
  have hall : ∀ pid ∈ ["424738282"], ∀ rg ∈ regexListOf ".*",
      fetch_ga4_data backendNoRows pid (nmDNA pid) rg ⟨2024, 8, 1⟩ ⟨2024, 8, 31⟩ = .ok [] := by
    intro pid hp rg hrg
    fin_cases hp
    fin_cases hrg
    rfl
  refine ⟨by simp, by simp, by decide, hnm, hall, ?_⟩
  exact (c7_no_data backendNoRows (some "cred") ["424738282"] ".*" ⟨2024, 8, 1⟩ ⟨2024, 8, 31⟩
    nmDNA (by simp) (by simp) (by decide) hnm).1 hall

/-- C8: every row of the dataset of a completed fetch loop carries the
regex used in the call that produced it, and its Site equals the display
name the static property directory maps the queried property id to. -/
theorem c8_row_provenance (client : Backend) (sites regexes : List String)
    (s e : PyDate) (data : List ReportRow)
    (h : runMatrix client sites regexes s e = .ok data) :
    ∀ r ∈ data, ∃ pid ∈ sites, ∃ rg ∈ regexes,
      r.Regex = rg ∧ lookupName pid = some r.Site :=
  runMatrix_mem_of_ok h

/-- C8 witness on a concrete completed run. -/
theorem c8_row_provenance_witness :
    runMatrix backendOneRow ["424738282"] ["a"] ⟨2024, 8, 1⟩ ⟨2024, 8, 31⟩ =
      .ok [{ Site := "DNA English", Year_Month := "2024-08", Total_Users := 150,
             Pageviews := 300, Regex := "a" }] ∧
    (∀ r ∈ [({ Site := "DNA English", Year_Month := "2024-08", Total_Users := 150,
               Pageviews := 300, Regex := "a" } : ReportRow)],
      ∃ pid ∈ ["424738282"], ∃ rg ∈ ["a"],
        r.Regex = rg ∧ lookupName pid = some r.Site) :=
  ⟨rfl,
    c8_row_provenance backendOneRow ["424738282"] ["a"] ⟨2024, 8, 1⟩ ⟨2024, 8, 31⟩
      [{ Site := "DNA English", Year_Month := "2024-08", Total_Users := 150,
         Pageviews := 300, Regex := "a" }] rfl⟩

/-- C9: the pipeline is deterministic: two runs with identical inputs
against backends giving identical responses to every request end in the
same outcome, hence byte-identical CSV content. -/
theorem c9_deterministic (b1 b2 : Backend) (hb : ∀ req, b1 req = b2 req)
    (cred : Option String) (sites : List String) (rtext : String) (s e : PyDate) :
    mainRun b1 cred sites rtext s e = mainRun b2 cred sites rtext s e := by
  have hbe : b1 = b2 := funext hb
  rw [hbe]

/-- C9 witness: two syntactically different but pointwise equal backends
give the same outcome. -/
theorem c9_deterministic_witness :
    (∀ req, backendOneRow req = backendOneRowAlt req) ∧
    mainRun backendOneRow (some "cred") ["424738282"] ".*" ⟨2024, 8, 1⟩ ⟨2024, 8, 31⟩ =
      mainRun backendOneRowAlt (some "cred") ["424738282"] ".*" ⟨2024, 8, 1⟩ ⟨2024, 8, 31⟩ :=
  ⟨fun _ => rfl,
    c9_deterministic backendOneRow backendOneRowAlt (fun _ => rfl) (some "cred")
      ["424738282"] ".*" ⟨2024, 8, 1⟩ ⟨2024, 8, 31⟩⟩

/-- C10 as stated fails: this response row has two dimension values and
two metric values, yet flattening fails, because the first metric value
is not numeric. -/
theorem c10_counterexample :
    ([({ value := "2024" } : DimensionValue), { value := "8" }].length = 2 ∧
      [({ value := "abc" } : MetricValue), { value := "300" }].length = 2) ∧
    flattenRow "S" ".*" ⟨[⟨"2024"⟩, ⟨"8"⟩], [⟨"abc"⟩, ⟨"300"⟩]⟩ =
      .error (.malformedMetric "abc") ∧
    (flattenRow "S" ".*" ⟨[⟨"2024"⟩, ⟨"8"⟩], [⟨"abc"⟩, ⟨"300"⟩]⟩).toOption = none :=
  ⟨⟨rfl, rfl⟩, rfl, rfl⟩

/-- C10 amended: the flattening indexes the first two dimension values
and the first two metric values without a guard; it succeeds on every
row with at least two of each whose first two metric values parse as
integers, and a row with fewer dimension or metric values makes the
fetch fail rather than produce a partial ReportRow. -/
theorem c10_flatten_unguarded (site regex : String) (d0 d1 : DimensionValue)
    (ds : List DimensionValue) (m0 m1 : MetricValue) (ms : List MetricValue)
    (t p : Int) (h0 : pyInt m0.value = some t) (h1 : pyInt m1.value = some p) :
    flattenRow site regex ⟨d0 :: d1 :: ds, m0 :: m1 :: ms⟩ =
      .ok { Site := site, Year_Month := d0.value ++ "-" ++ zfill 2 d1.value,
            Total_Users := t, Pageviews := p, Regex := regex } ∧
    (∀ row : ResponseRow,
      row.dimension_values.length < 2 ∨ row.metric_values.length < 2 →
      (flattenRow site regex row).toOption = none) := by
  constructor
  · unfold flattenRow
    simp only [List.get?]
    rw [h0, h1]
  · intro row hlt
    obtain ⟨dv, mv⟩ := row
    rcases dv with _ | ⟨da, dv⟩
    · rfl
    rcases dv with _ | ⟨db, dv⟩
    · rfl
    rcases mv with _ | ⟨ma, mv⟩
    · rfl
    rcases mv with _ | ⟨mb, mv⟩
    · cases hm : pyInt ma.value with
      | none => simp [flattenRow, List.get?, hm, Except.toOption]
      | some t0 => simp [flattenRow, List.get?, hm, Except.toOption]
    · exfalso
      simp only [List.length_cons] at hlt
      omega

/-- C10 amended witness: the spec example row flattens successfully. -/
theorem c10_flatten_unguarded_witness :
    pyInt "150" = some 150 ∧ pyInt "300" = some 300 ∧
    flattenRow "DNA English" ".*(/mp/).*" ⟨[⟨"2024"⟩, ⟨"8"⟩], [⟨"150"⟩, ⟨"300"⟩]⟩ =
      .ok { Site := "DNA English", Year_Month := "2024" ++ "-" ++ zfill 2 "8",
            Total_Users := 150, Pageviews := 300, Regex := ".*(/mp/).*" } ∧
    ((flattenRow "DNA English" ".*(/mp/).*" ⟨[⟨"2024"⟩], [⟨"150"⟩, ⟨"300"⟩]⟩).toOption =
      none) := by
  refine ⟨rfl, rfl, ?_, ?_⟩
  · exact (c10_flatten_unguarded "DNA English" ".*(/mp/).*" ⟨"2024"⟩ ⟨"8"⟩ [] ⟨"150"⟩
      ⟨"300"⟩ [] 150 300 rfl rfl).1
  · exact (c10_flatten_unguarded "DNA English" ".*(/mp/).*" ⟨"2024"⟩ ⟨"8"⟩ [] ⟨"150"⟩
      ⟨"300"⟩ [] 150 300 rfl rfl).2 ⟨[⟨"2024"⟩], [⟨"150"⟩, ⟨"300"⟩]⟩ (by simp)

end GA4
